import Mathlib

/-!
Verification of the Studio Lighting Controller core against its specification.

The TypeScript sources are shallowly embedded in Lean:
* JS `number` values that the code feeds through `Math.round` / clamping are
  modelled as `ℚ` (the values reaching these claims are always integer-valued
  or exact fractions of integers, so the rational model is exact);
* `Uint8Array` channel stores are modelled as functions `Fin 512 → ℤ`
  (every value written by the code is first clamped to [0,255], on which the
  `Uint8Array` coercion is the identity);
* listener notification and log warnings are reified as explicit event lists;
* timers (`setInterval` / `setTimeout`) are reified as explicit tick /
  attempt steps carrying the elapsed time or attempt outcome.
-/

set_option maxHeartbeats 1000000
set_option maxRecDepth 8000

/-! ## JS numeric primitives

`Math.round x` rounds half toward +∞, i.e. `⌊x + 1/2⌋`.
`Math.max(0, Math.min(255, z))` is `clamp255`. -/

/-- JS `Math.round` on an exact rational: round half toward positive infinity. -/
def jsRound (q : ℚ) : ℤ := ⌊q + 1/2⌋

/-- JS `Math.max(0, Math.min(255, z))` on an integer. -/
def clamp255 (z : ℤ) : ℤ := max 0 (min 255 z)

/-- `Math.max(0, Math.min(255, Math.round v))`, the write path of every
channel/master mutation in `DMXUniverse`. -/
def clampRound (q : ℚ) : ℤ := clamp255 (jsRound q)

theorem clamp255_nonneg (z : ℤ) : 0 ≤ clamp255 z := le_max_left 0 _

theorem clamp255_le (z : ℤ) : clamp255 z ≤ 255 := by
  unfold clamp255; omega

theorem clampRound_nonneg (q : ℚ) : 0 ≤ clampRound q := clamp255_nonneg _

theorem clampRound_le (q : ℚ) : clampRound q ≤ 255 := clamp255_le _

/-- `Math.round` is the identity on integers. -/
theorem jsRound_intCast (z : ℤ) : jsRound (z : ℚ) = z := by
  unfold jsRound
  rw [Int.floor_int_add]
  norm_num

/-- Clamping is the identity on values already in [0,255]. -/
theorem clamp255_eq_self {z : ℤ} (h0 : 0 ≤ z) (h1 : z ≤ 255) : clamp255 z = z := by
  unfold clamp255
  rw [min_eq_right h1, max_eq_right h0]

/-- `jsRound` is monotone. -/
theorem jsRound_mono {p q : ℚ} (h : p ≤ q) : jsRound p ≤ jsRound q :=
  Int.floor_le_floor (by linarith)

theorem jsRound_nonneg {q : ℚ} (h : 0 ≤ q) : 0 ≤ jsRound q := by
  have := jsRound_mono h
  rwa [show jsRound 0 = 0 from by unfold jsRound; norm_num] at this

theorem jsRound_le_255 {q : ℚ} (h : q ≤ 255) : jsRound q ≤ 255 := by
  have := jsRound_mono h
  rwa [show jsRound 255 = 255 from by unfold jsRound; norm_num] at this

/-! ## DMXUniverse (src: `dmx-universe.ts`)

State: `channels : Uint8Array(512)`, `masterDimmer : number`, plus a listener
set.  Listener invocation (`notifyListeners`) computes `getState()` once and
hands the same effective snapshot to every listener; we reify each
`notifyListeners()` call as a `UEvent.notify` event carrying that snapshot, and
each `log.warn` in the mutators as `UEvent.warn`. -/

/-- The observable state of a `DMXUniverse` instance. -/
structure UniState where
  channels : Fin 512 → ℤ
  master : ℤ
deriving DecidableEq

/-- Constructor state: `new Uint8Array(512)` (all zero), `masterDimmer = 255`. -/
def UniState.initial : UniState := ⟨fun _ => 0, 255⟩

/-- `getState()`: `output[i] = Math.round(this.channels[i] * masterScale)`
with `masterScale = this.masterDimmer / 255`. -/
def UniState.getState (s : UniState) : Fin 512 → ℤ :=
  fun i => jsRound ((s.channels i : ℚ) * ((s.master : ℚ) / 255))

/-- `getRawState()`: a copy of the raw channel array. -/
def UniState.getRawState (s : UniState) : Fin 512 → ℤ := s.channels

/-- Events observable from outside a `DMXUniverse` mutation: a listener
notification carrying the effective snapshot, or a `log.warn`. -/
inductive UEvent
  | notify (effective : Fin 512 → ℤ)
  | warn
deriving DecidableEq

/-- Pointwise update of the channel array at (rational) index `idx`:
`this.channels[idx] = x`.  When `idx` is an in-range integer this writes that
cell; when it is not an integer the JS `Uint8Array` indexed write is a no-op,
which the pointwise test `(j : ℚ) = idx` reproduces exactly. -/
def writeAt (chans : Fin 512 → ℤ) (idx : ℚ) (x : ℤ) : Fin 512 → ℤ :=
  fun j => if (j : ℚ) = idx then x else chans j

/-- `setChannel(channel, value)` (channel is 1-indexed). -/
def UniState.setChannel (s : UniState) (channel value : ℚ) : UniState × List UEvent :=
  if channel < 1 ∨ 512 < channel then
    (s, [.warn])
  else
    let s' : UniState := { s with channels := writeAt s.channels (channel - 1) (clampRound value) }
    (s', [.notify s'.getState])

/-- `setChannels(values)`: the entries of the record, in iteration order. -/
def UniState.setChannels (s : UniState) (values : List (ℚ × ℚ)) : UniState × List UEvent :=
  let s' : UniState := values.foldl
    (fun acc cv =>
      if 1 ≤ cv.1 ∧ cv.1 ≤ 512 then
        { acc with channels := writeAt acc.channels (cv.1 - 1) (clampRound cv.2) }
      else acc) s
  (s', [.notify s'.getState])

/-- `applySnapshot(snapshot)`: `channels[i] = clamp(round(snapshot[i] || 0))`
for i = 0..511 (`snapshot[i] || 0` reads 0 for a missing entry). -/
def UniState.applySnapshot (s : UniState) (snapshot : List ℚ) : UniState × List UEvent :=
  let s' : UniState := { s with channels := fun i => clampRound (snapshot.getD i 0) }
  (s', [.notify s'.getState])

/-- `setMasterDimmer(value)`. -/
def UniState.setMasterDimmer (s : UniState) (value : ℚ) : UniState × List UEvent :=
  let s' : UniState := { s with master := clampRound value }
  (s', [.notify s'.getState])

/-- `blackout()`: `channels.fill(0)` (master untouched). -/
def UniState.blackout (s : UniState) : UniState × List UEvent :=
  let s' : UniState := { s with channels := fun _ => 0 }
  (s', [.notify s'.getState])

/-- One mutating call on the universe, with its (possibly out-of-range or
non-integer) JS-number arguments. -/
inductive UOp
  | setChannel (channel value : ℚ)
  | setChannels (values : List (ℚ × ℚ))
  | applySnapshot (snapshot : List ℚ)
  | setMasterDimmer (value : ℚ)
  | blackout

/-- Apply one call to the universe state. -/
def UOp.apply (op : UOp) (s : UniState) : UniState × List UEvent :=
  match op with
  | .setChannel ch v => s.setChannel ch v
  | .setChannels values => s.setChannels values
  | .applySnapshot snap => s.applySnapshot snap
  | .setMasterDimmer v => s.setMasterDimmer v
  | .blackout => s.blackout

/-- Run a finite sequence of calls from the constructor state. -/
def runOps (ops : List UOp) : UniState :=
  ops.foldl (fun s op => (op.apply s).1) UniState.initial

/-- The range invariant: all stored channel bytes and the master in [0,255]. -/
def UniState.inRange (s : UniState) : Prop :=
  (∀ i, 0 ≤ s.channels i ∧ s.channels i ≤ 255) ∧ 0 ≤ s.master ∧ s.master ≤ 255

theorem writeAt_inRange {chans : Fin 512 → ℤ} (h : ∀ i, 0 ≤ chans i ∧ chans i ≤ 255)
    {x : ℤ} (hx0 : 0 ≤ x) (hx1 : x ≤ 255) (idx : ℚ) :
    ∀ i, 0 ≤ writeAt chans idx x i ∧ writeAt chans idx x i ≤ 255 := by
  intro i
  unfold writeAt
  by_cases hc : (i : ℚ) = idx
  · simp [hc, hx0, hx1]
  · simp [hc, h i]

theorem setChannels_fold_inRange {s : UniState} (hs : s.inRange) (values : List (ℚ × ℚ)) :
    (values.foldl
      (fun acc cv =>
        if 1 ≤ cv.1 ∧ cv.1 ≤ 512 then
          { acc with channels := writeAt acc.channels (cv.1 - 1) (clampRound cv.2) }
        else acc) s).inRange := by
  induction values generalizing s with
  | nil => exact hs
  | cons cv rest ih =>
    simp only [List.foldl_cons]
    apply ih
    by_cases hc : 1 ≤ cv.1 ∧ cv.1 ≤ 512
    · simp only [if_pos hc]
      exact ⟨writeAt_inRange hs.1 (clampRound_nonneg _) (clampRound_le _) _, hs.2⟩
    · simp only [if_neg hc]
      exact hs

/-- Every mutating call preserves the range invariant. -/
theorem UOp.apply_inRange {s : UniState} (hs : s.inRange) (op : UOp) :
    (op.apply s).1.inRange := by
  cases op with
  | setChannel ch v =>
    simp only [apply, UniState.setChannel]
    by_cases hc : ch < 1 ∨ 512 < ch
    · simpa [hc] using hs
    · simp only [if_neg hc]
      exact ⟨writeAt_inRange hs.1 (clampRound_nonneg _) (clampRound_le _) _, hs.2⟩
  | setChannels values =>
    simpa only [apply, UniState.setChannels] using setChannels_fold_inRange hs values
  | applySnapshot snap =>
    exact ⟨fun i => ⟨clampRound_nonneg _, clampRound_le _⟩, hs.2⟩
  | setMasterDimmer v =>
    exact ⟨hs.1, clampRound_nonneg _, clampRound_le _⟩
  | blackout =>
    exact ⟨fun i => by simp [apply, UniState.blackout], hs.2⟩

theorem initial_inRange : UniState.initial.inRange :=
  ⟨fun i => by simp [UniState.initial], by simp [UniState.initial], by simp [UniState.initial]⟩

theorem runOps_inRange (ops : List UOp) : (runOps ops).inRange := by
  unfold runOps
  suffices h : ∀ s : UniState, s.inRange →
      (ops.foldl (fun s op => (UOp.apply op s).1) s).inRange from
    h _ initial_inRange
  induction ops with
  | nil => exact fun s hs => hs
  | cons op rest ih =>
    intro s hs
    exact ih _ (UOp.apply_inRange hs op)

/-- The effective (master-scaled) value of an in-range cell is in [0,255]. -/
theorem getState_range {s : UniState} (hs : s.inRange) (i : Fin 512) :
    0 ≤ s.getState i ∧ s.getState i ≤ 255 := by
  obtain ⟨hch, hm0, hm1⟩ := hs
  obtain ⟨hc0, hc1⟩ := hch i
  unfold UniState.getState
  constructor
  · apply jsRound_nonneg
    apply mul_nonneg
    · exact_mod_cast hc0
    · apply div_nonneg
      · exact_mod_cast hm0
      · norm_num
  · apply jsRound_le_255
    have hc0q : (0 : ℚ) ≤ (s.channels i : ℚ) := by exact_mod_cast hc0
    have hc1q : (s.channels i : ℚ) ≤ 255 := by exact_mod_cast hc1
    have hm0q : (0 : ℚ) ≤ (s.master : ℚ) := by exact_mod_cast hm0
    have hm1q : (s.master : ℚ) ≤ 255 := by exact_mod_cast hm1
    nlinarith

/-- `getState()` as a method call: it returns a freshly built output array and
touches neither `this.channels` nor `this.masterDimmer`. -/
def UniState.getStateCall (s : UniState) : (Fin 512 → ℤ) × UniState :=
  (s.getState, s)

/-- C1: the effective view satisfies `effective[i] = round(raw[i] * master / 255)`
for every universe state and channel, and reading it leaves the raw channels
(and the whole state) unchanged. -/
theorem c1_effective_view (s : UniState) (i : Fin 512) :
    (s.getStateCall.1 i = jsRound ((s.getRawState i : ℚ) * (s.master : ℚ) / 255)) ∧
    s.getStateCall.2 = s ∧ s.getStateCall.2.getRawState = s.getRawState := by
  refine ⟨?_, rfl, rfl⟩
  unfold UniState.getStateCall UniState.getState UniState.getRawState
  ring_nf

/-- C2: after any finite sequence of `setChannel` / `setChannels` /
`applySnapshot` / `setMasterDimmer` / `blackout` calls with arbitrary rational
arguments, every raw byte, every effective byte, and the master dimmer lie in
[0,255]. -/
theorem c2_range_invariant (ops : List UOp) :
    (∀ i, 0 ≤ (runOps ops).getRawState i ∧ (runOps ops).getRawState i ≤ 255) ∧
    (∀ i, 0 ≤ (runOps ops).getState i ∧ (runOps ops).getState i ≤ 255) ∧
    (0 ≤ (runOps ops).master ∧ (runOps ops).master ≤ 255) := by
  have h := runOps_inRange ops
  exact ⟨h.1, fun i => getState_range h i, h.2⟩

/-- C3: `setChannels` emits exactly one notification, whose payload is the
effective snapshot of the state after the whole batch has been applied (so a
listener never observes a partially applied batch); `setChannel` with a
channel in 1..512 emits exactly one; `applySnapshot` emits exactly one. -/
theorem c3_single_notification (s : UniState) (values : List (ℚ × ℚ)) (snap : List ℚ)
    (ch v : ℚ) (hch : 1 ≤ ch ∧ ch ≤ 512) :
    (s.setChannels values).2 = [.notify (s.setChannels values).1.getState] ∧
    (s.setChannel ch v).2 = [.notify (s.setChannel ch v).1.getState] ∧
    (s.applySnapshot snap).2 = [.notify (s.applySnapshot snap).1.getState] := by
  refine ⟨rfl, ?_, rfl⟩
  have hc : ¬(ch < 1 ∨ 512 < ch) := by push_neg; exact hch
  simp only [UniState.setChannel, if_neg hc]

theorem c3_single_notification_witness :
    ((1 : ℚ) ≤ 10 ∧ (10 : ℚ) ≤ 512) ∧
    (UniState.initial.setChannel 10 200).2 =
      [.notify (UniState.initial.setChannel 10 200).1.getState] :=
  ⟨by norm_num, (c3_single_notification UniState.initial [] [] 10 200 (by norm_num)).2.1⟩

/-- C10: `setChannels` never logs a warning (its out-of-range entries are
skipped silently, unlike `setChannel`, which warns), it emits exactly one
notification even when the batch is empty or every entry was skipped, and a
batch whose entries are all out of range leaves the state unchanged. -/
theorem c10_silent_skip (s : UniState) (values : List (ℚ × ℚ)) (ch v : ℚ) :
    UEvent.warn ∉ (s.setChannels values).2 ∧
    (s.setChannels values).2 = [.notify (s.setChannels values).1.getState] ∧
    ((∀ cv ∈ values, ¬(1 ≤ cv.1 ∧ cv.1 ≤ 512)) → (s.setChannels values).1 = s) ∧
    ((ch < 1 ∨ 512 < ch) → (s.setChannel ch v).2 = [.warn]) := by
  refine ⟨by simp [UniState.setChannels], rfl, ?_, ?_⟩
  · intro hall
    show values.foldl _ s = s
    induction values generalizing s with
    | nil => rfl
    | cons cv rest ih =>
      simp only [List.foldl_cons, if_neg (hall cv (by simp))]
      exact ih _ fun cv' h => hall cv' (by simp [h])
  · intro hc
    simp only [UniState.setChannel, if_pos hc]

theorem c10_silent_skip_witness :
    UEvent.warn ∉ (UniState.initial.setChannels [(600, 5)]).2 ∧
    (UniState.initial.setChannels [(600, 5)]).1 = UniState.initial ∧
    (UniState.initial.setChannel 600 5).2 = [.warn] :=
  ⟨(c10_silent_skip UniState.initial [(600, 5)] 600 5).1,
   (c10_silent_skip UniState.initial [(600, 5)] 600 5).2.2.1 (by norm_num),
   (c10_silent_skip UniState.initial [(600, 5)] 600 5).2.2.2 (by norm_num)⟩

/-! ## DMXDriver (src: `dmx-driver.ts`)

`buildDMXPacket` allocates a zeroed buffer of `channels.length + 1 + 5` bytes,
writes the five header bytes at offsets 0..4, copies the channel bytes to
offsets 5.., and sets the final byte.  Every byte of the buffer is covered by
exactly one of those writes (offsets 0..4 by the header, `5..5+len-1` by the
copy loop, `len+5` by the end byte), so the buffer equals the concatenation
below. -/

/-- `buildDMXPacket(channels)` for the Enttec DMX USB Pro "Send DMX" frame.
`dataLength = channels.length + 1` (the DMX start code plus the channel data);
bytes 2 and 3 are `dataLength & 0xff` and `(dataLength >> 8) & 0xff`. -/
def buildDMXPacket (channels : List ℕ) : List ℕ :=
  let dataLength := channels.length + 1
  [0x7e, 6, dataLength % 256, dataLength / 256 % 256, 0x00] ++ channels ++ [0xe7]

/-- C4: for a 512-byte input the frame is exactly 518 bytes, starts with
`7E 06 01 02 00`, ends with `E7`, and carries the 512 input bytes in order at
offsets 5..516. -/
theorem c4_packet_shape (channels : List ℕ) (hlen : channels.length = 512) :
    (buildDMXPacket channels).length = 518 ∧
    (buildDMXPacket channels).take 5 = [0x7e, 0x06, 0x01, 0x02, 0x00] ∧
    (buildDMXPacket channels).getLast? = some 0xe7 ∧
    ((buildDMXPacket channels).drop 5).take 512 = channels := by
  unfold buildDMXPacket
  refine ⟨by simp [hlen], by simp [hlen], ?_, ?_⟩
  · rw [List.getLast?_append]
    rfl
  · rw [List.append_assoc, List.drop_append_of_le_length (by simp)]
    simp [hlen]

theorem c4_packet_shape_witness :
    (List.replicate 512 0).length = 512 ∧
    (buildDMXPacket (List.replicate 512 0)).length = 518 :=
  ⟨List.length_replicate 512 0,
   (c4_packet_shape (List.replicate 512 0) (List.length_replicate 512 0)).1⟩

/-! ## DMXDriver reconnection backoff

The reconnection logic in `dmx-driver.ts` schedules one attempt per timer
firing, `reconnectDelay` milliseconds after it was scheduled.  Each attempt
runs `detectDevice()` and then:
* no device detected (`startReconnection`, else branch):
  `reconnectDelay = Math.min(reconnectDelay * 2, 30000)` and reschedule;
* device detected but `serialPort.open` reports an error (`connect`, open
  callback): `startReconnection()` is called with `reconnectDelay` untouched;
* the port opens (`connect`, open handler): `reconnectDelay = 1000`.
`reconnectDelay` starts at 1000 and `maxReconnectDelay = 30000`. -/

/-- Outcome of one reconnection attempt. -/
inductive AttemptOutcome
  | detectFail
  | openFail
  | success
deriving DecidableEq

/-- How one attempt transforms `reconnectDelay`. -/
def nextDelay (d : ℕ) : AttemptOutcome → ℕ
  | .detectFail => min (d * 2) 30000
  | .openFail => d
  | .success => 1000

/-- The delay (ms) waited before each attempt, given the starting
`reconnectDelay` and the sequence of attempt outcomes. -/
def delaysFrom (d : ℕ) : List AttemptOutcome → List ℕ
  | [] => []
  | o :: os => d :: delaysFrom (nextDelay d o) os

theorem delaysFrom_detectFail (n : ℕ) :
    ∀ d k, d ≤ 30000 → k < n →
      (delaysFrom d (List.replicate n .detectFail)).getD k 0 = min (d * 2 ^ k) 30000 := by
  induction n with
  | zero => intro d k _ hk; omega
  | succ m ih =>
    intro d k hd hk
    rw [List.replicate_succ]
    match k with
    | 0 =>
      simp only [delaysFrom, List.getD_cons_zero]
      have : d * 2 ^ 0 = d := by ring
      omega
    | k' + 1 =>
      simp only [delaysFrom, List.getD_cons_succ]
      rw [ih (nextDelay d .detectFail) k' (by simp [nextDelay]) (by omega)]
      simp only [nextDelay]
      have hM : 1 ≤ 2 ^ k' := Nat.one_le_two_pow
      have hpow : d * 2 ^ (k' + 1) = d * 2 * 2 ^ k' := by ring
      rcases le_or_lt (d * 2) 30000 with h | h
      · rw [min_eq_left h, hpow]
      · rw [min_eq_right h.le, hpow]
        have h1 : 30000 * 2 ^ k' ≥ 30000 := Nat.le_mul_of_pos_right _ (by omega)
        have h2 : d * 2 * 2 ^ k' ≥ 30000 := le_trans (by omega) (Nat.mul_le_mul_right _ h.le)
        omega

/-- C7 counterexample: two consecutive failed reconnect attempts in which a
device was detected but the port failed to open are spaced 1000 ms apart, not
1000 then 2000 ms as the claim's doubling sequence requires. -/
theorem c7_counterexample :
    delaysFrom 1000 [.openFail, .openFail] = [1000, 1000] ∧
    delaysFrom 1000 [.openFail, .openFail] ≠ [1000, 2000] := by
  constructor
  · rfl
  · intro h
    simp [delaysFrom, nextDelay] at h

/-- C7 (amended): the delay doubles, capped at 30000 ms, on each failed
attempt in which *no device was detected* — the k-th such delay is
`min(1000·2^k, 30000)`; an attempt that detects a device but fails to open
the port reschedules with the delay unchanged; the delay is reset to 1000 ms
upon every successful port open. -/
theorem c7_amended_backoff (n k : ℕ) (hk : k < n) :
    (delaysFrom 1000 (List.replicate n .detectFail)).getD k 0 = min (1000 * 2 ^ k) 30000 ∧
    (∀ d, nextDelay d .openFail = d) ∧
    (∀ d, nextDelay d .success = 1000) :=
  ⟨delaysFrom_detectFail n 1000 k (by omega) hk, fun _ => rfl, fun _ => rfl⟩

theorem c7_amended_backoff_witness :
    5 < 6 ∧
    (delaysFrom 1000 (List.replicate 6 .detectFail)).getD 5 0 = min (1000 * 2 ^ 5) 30000 :=
  ⟨by omega, (c7_amended_backoff 6 5 (by omega)).1⟩

/-! ## FadeEngine (src: `fade-engine.ts`)

`fadeTo` first runs `cancelFade()` (clearing any active interval and resolving
any pending promise), then either applies the target immediately (`durationMs
≤ 0`, returning an already-resolved promise) or captures the raw channels,
stores the fade parameters and arms the 25 ms interval.  Each interval firing
computes `elapsed = Date.now() - startTime`; we reify one firing as `tick`
taking that elapsed time.  Promise resolutions are reified as
`FEvent.resolved id` events, where `id` tags the promise returned by the
corresponding `fadeTo` call. -/

/-- The data captured for an in-flight fade: `startChannels` (the raw channel
array at fade start), the target array and the duration. -/
structure FadeRun where
  startChannels : List ℤ
  targetChannels : List ℚ
  durationMs : ℚ

/-- Observable state of a `FadeEngine` and its universe: `activeFade` models
the armed interval, `fadeResolve` the stored (pending) promise resolver. -/
structure EngState where
  uni : UniState
  activeFade : Option FadeRun
  fadeResolve : Option ℕ

/-- A promise resolution, tagged with the promise's id. -/
inductive FEvent
  | resolved (id : ℕ)
deriving DecidableEq

/-- `getRawChannelsArray()`: `Array.from(this.channels)`. -/
def getRawChannelsArray (s : UniState) : List ℤ :=
  (List.finRange 512).map s.channels

/-- `cancelFade()`: clear the interval, resolve and null any pending resolver. -/
def EngState.cancelFade (e : EngState) : EngState × List FEvent :=
  ({ e with activeFade := none, fadeResolve := none },
   match e.fadeResolve with
   | some pid => [.resolved pid]
   | none => [])

/-- `fadeTo(targetChannels, durationMs)`, the returned promise tagged `pid`. -/
def EngState.fadeTo (e : EngState) (pid : ℕ) (targetChannels : List ℚ)
    (durationMs : ℚ) : EngState × List FEvent :=
  let canceled := e.cancelFade
  if durationMs ≤ 0 then
    ({ canceled.1 with uni := (canceled.1.uni.applySnapshot targetChannels).1 },
     canceled.2 ++ [.resolved pid])
  else
    ({ canceled.1 with
        activeFade := some ⟨getRawChannelsArray canceled.1.uni, targetChannels, durationMs⟩,
        fadeResolve := some pid },
     canceled.2)

/-- One firing of the 25 ms fade interval, at `elapsed` ms since fade start:
`progress = min(1, elapsed / durationMs)`;
`interpolated[i] = max(0, min(255, round(start + (end - start) * progress)))`
with `start = startChannels[i] || 0`, `end = targetChannels[i] || 0`; then
`universe.applySnapshot(interpolated)`; on `progress ≥ 1`, `completeFade()`
(clear the interval, resolve the pending promise). -/
def EngState.tick (e : EngState) (elapsed : ℚ) : EngState × List FEvent :=
  match e.activeFade with
  | none => (e, [])
  | some run =>
    let progress := min 1 (elapsed / run.durationMs)
    let interpolated : List ℚ := (List.range 512).map fun i =>
      let start : ℚ := (run.startChannels.getD i 0 : ℤ)
      let tgt : ℚ := run.targetChannels.getD i 0
      ((clamp255 (jsRound (start + (tgt - start) * progress)) : ℤ) : ℚ)
    let u := (e.uni.applySnapshot interpolated).1
    if 1 ≤ progress then
      (({ uni := u, activeFade := none, fadeResolve := none } : EngState),
       match e.fadeResolve with
       | some pid => [.resolved pid]
       | none => [])
    else
      ({ e with uni := u }, [])

theorem rangeMap_getD (f : ℕ → ℚ) (i : Fin 512) :
    ((List.range 512).map f).getD i 0 = f i := by
  rw [List.getD_eq_getElem _ _ (by simp)]
  simp

theorem rawArray_getD (s : UniState) (i : Fin 512) :
    (getRawChannelsArray s).getD i 0 = s.channels i := by
  unfold getRawChannelsArray
  rw [List.getD_eq_getElem _ _ (by simp)]
  simp

/-- Feeding `applySnapshot` a list of already clamped-and-rounded integers
stores exactly those integers. -/
theorem applySnapshot_clamped (s : UniState) (f : ℕ → ℚ) (g : ℕ → ℤ)
    (hf : ∀ j, f j = (clamp255 (g j) : ℚ)) (i : Fin 512) :
    (s.applySnapshot ((List.range 512).map f)).1.channels i = clamp255 (g i) := by
  show clampRound (((List.range 512).map f).getD i 0) = clamp255 (g i)
  rw [rangeMap_getD, hf]
  unfold clampRound
  rw [jsRound_intCast]
  exact clamp255_eq_self (clamp255_nonneg _) (clamp255_le _)

/-- With `durationMs > 0`, `fadeTo` leaves the universe untouched, captures the
current raw channels and arms the interval, storing its promise's resolver. -/
theorem fadeTo_armed (e : EngState) (pid : ℕ) (target : List ℚ) (d : ℚ)
    (hd : ¬d ≤ 0) :
    (e.fadeTo pid target d).1 =
      ⟨e.uni, some ⟨getRawChannelsArray e.uni, target, d⟩, some pid⟩ := by
  unfold EngState.fadeTo EngState.cancelFade
  simp only [if_neg hd]

/-- On any interval firing, the value written to channel `i` is
`clamp(round(start + (end - start) * min(1, elapsed/duration)))`. -/
theorem tick_channels (e : EngState) (run : FadeRun) (h : e.activeFade = some run)
    (elapsed : ℚ) (i : Fin 512) :
    (e.tick elapsed).1.uni.channels i =
      clamp255 (jsRound ((run.startChannels.getD i 0 : ℚ) +
        (run.targetChannels.getD i 0 - (run.startChannels.getD i 0 : ℚ)) *
          min 1 (elapsed / run.durationMs))) := by
  unfold EngState.tick
  rw [h]
  by_cases hp : (1 : ℚ) ≤ min 1 (elapsed / run.durationMs)
  · simp only [if_pos hp]
    exact applySnapshot_clamped _ _ _ (fun j => rfl) i
  · simp only [if_neg hp]
    exact applySnapshot_clamped _ _ _ (fun j => rfl) i

/-- When progress reaches 1, the firing clears the interval and resolves the
stored promise. -/
theorem tick_completes (e : EngState) (run : FadeRun) (h : e.activeFade = some run)
    (elapsed : ℚ) (hp : (1 : ℚ) ≤ min 1 (elapsed / run.durationMs)) :
    (e.tick elapsed).1.activeFade = none ∧
    (e.tick elapsed).1.fadeResolve = none ∧
    (e.tick elapsed).2 =
      (match e.fadeResolve with | some pid => [FEvent.resolved pid] | none => []) := by
  unfold EngState.tick
  rw [h]
  simp only [if_pos hp]
  exact ⟨trivial, trivial, trivial⟩

theorem min_one_div_eq_one {d elapsed : ℚ} (hd : 0 < d) (h : d ≤ elapsed) :
    min 1 (elapsed / d) = 1 :=
  min_eq_left ((one_le_div hd).mpr h)

/-- C5: `fadeTo(target, d)` with `d ≤ 0` applies the target snapshot at once
and completes; with `d > 0`, a tick at `elapsed` ms writes
`clamp(round(start[i] + (target[i] - start[i]) * min(1, elapsed/d)))` to every
channel; once `elapsed ≥ d` the tick stops the interval, resolves the
operation and leaves the raw state at the (rounded, clamped) target; a second
`fadeTo` issued while a fade is pending still resolves the first fade's
promise, and after its own duration the state equals its target. -/
theorem c5_fadeTo (e : EngState) (pid pid2 : ℕ) (target target2 : List ℚ)
    (d d2 elapsed elapsed2 : ℚ) :
    (d ≤ 0 →
      (e.fadeTo pid target d).1.uni = (e.uni.applySnapshot target).1 ∧
      FEvent.resolved pid ∈ (e.fadeTo pid target d).2 ∧
      (e.fadeTo pid target d).1.activeFade = none) ∧
    (¬d ≤ 0 →
      ∀ i : Fin 512,
        (((e.fadeTo pid target d).1.tick elapsed).1.uni.channels i =
          clamp255 (jsRound ((e.uni.channels i : ℚ) +
            (target.getD i 0 - (e.uni.channels i : ℚ)) * min 1 (elapsed / d))))) ∧
    (0 < d → d ≤ elapsed →
      ((e.fadeTo pid target d).1.tick elapsed).1.activeFade = none ∧
      FEvent.resolved pid ∈ ((e.fadeTo pid target d).1.tick elapsed).2 ∧
      ∀ i : Fin 512,
        ((e.fadeTo pid target d).1.tick elapsed).1.uni.channels i =
          clampRound (target.getD i 0)) ∧
    (e.fadeResolve = some pid →
      FEvent.resolved pid ∈ (e.fadeTo pid2 target2 d2).2) ∧
    (0 < d2 → d2 ≤ elapsed2 →
      ∀ i : Fin 512,
        (((e.fadeTo pid2 target2 d2).1.tick elapsed2).1.uni.channels i =
          clampRound (target2.getD i 0))) := by
  have instant : d ≤ 0 →
      (e.fadeTo pid target d).1.uni = (e.uni.applySnapshot target).1 ∧
      FEvent.resolved pid ∈ (e.fadeTo pid target d).2 ∧
      (e.fadeTo pid target d).1.activeFade = none := by
    intro hd
    unfold EngState.fadeTo EngState.cancelFade
    simp only [if_pos hd]
    refine ⟨trivial, ?_, trivial⟩
    simp
  have tickFormula : ∀ (p : ℕ) (tgt : List ℚ) (dur el : ℚ), ¬dur ≤ 0 →
      ∀ i : Fin 512,
        (((e.fadeTo p tgt dur).1.tick el).1.uni.channels i =
          clamp255 (jsRound ((e.uni.channels i : ℚ) +
            (tgt.getD i 0 - (e.uni.channels i : ℚ)) * min 1 (el / dur)))) := by
    intro p tgt dur el hd i
    rw [fadeTo_armed e p tgt dur hd]
    rw [tick_channels _ ⟨getRawChannelsArray e.uni, tgt, dur⟩ rfl el i]
    rw [rawArray_getD]
  have completes : ∀ (p : ℕ) (tgt : List ℚ) (dur el : ℚ), 0 < dur → dur ≤ el →
      ((e.fadeTo p tgt dur).1.tick el).1.activeFade = none ∧
      FEvent.resolved p ∈ ((e.fadeTo p tgt dur).1.tick el).2 ∧
      ∀ i : Fin 512,
        ((e.fadeTo p tgt dur).1.tick el).1.uni.channels i =
          clampRound (tgt.getD i 0) := by
    intro p tgt dur el hd hel
    have hd' : ¬dur ≤ 0 := not_le.mpr hd
    have hp : (1 : ℚ) ≤ min 1 (el / dur) := (min_one_div_eq_one hd hel).ge
    have harm := fadeTo_armed e p tgt dur hd'
    have hact : (e.fadeTo p tgt dur).1.activeFade =
        some ⟨getRawChannelsArray e.uni, tgt, dur⟩ := by rw [harm]
    obtain ⟨hnone, -, hev⟩ := tick_completes _ _ hact el hp
    refine ⟨hnone, ?_, ?_⟩
    · rw [hev, harm]
      simp
    · intro i
      rw [tickFormula p tgt dur el hd' i, min_one_div_eq_one hd hel]
      unfold clampRound
      norm_num
  refine ⟨instant, tickFormula pid target d elapsed, completes pid target d elapsed, ?_,
    fun h2 h2' => (completes pid2 target2 d2 elapsed2 h2 h2').2.2⟩
  intro hres
  unfold EngState.fadeTo EngState.cancelFade
  rw [hres]
  by_cases hd2 : d2 ≤ 0
  · simp [hd2]
  · simp [hd2]

theorem c5_fadeTo_witness :
    ((0 : ℚ) ≤ 0) ∧ ((0 : ℚ) < 100 ∧ (100 : ℚ) ≤ 100) ∧
    ((⟨UniState.initial, none, none⟩ : EngState).fadeTo 0 [] 0).1.uni =
      (UniState.initial.applySnapshot []).1 ∧
    ∀ i : Fin 512,
      ((((⟨UniState.initial, none, none⟩ : EngState).fadeTo 1 [255] 100).1.tick 100).1.uni.channels i =
        clampRound (([255] : List ℚ).getD i 0)) :=
  ⟨le_refl 0, ⟨by norm_num, le_refl 100⟩,
   (c5_fadeTo ⟨UniState.initial, none, none⟩ 0 1 [] [255] 0 100 0 100).1 (le_refl 0) |>.1,
   (c5_fadeTo ⟨UniState.initial, none, none⟩ 0 1 [] [255] 0 100 0 100).2.2.2.2
     (by norm_num) (le_refl 100)⟩

/-! ## PresetManager (src: `preset-manager.ts`)

`create` builds the preset with `channels.slice(0, 512)`, then pads with a
`while (length < 512) push(0)` loop, appends it to the stored array and
persists.  `uuidv4()` is modelled as an externally supplied identifier
(freshness of a v4 UUID is an environmental assumption, stated as a
hypothesis where needed); `new Date().toISOString()` as a supplied `now`
string.  `fixtureModes` plays no role in the claims and is omitted. -/

/-- A stored preset. -/
structure Preset where
  id : ℕ
  name : String
  channels : List ℚ
  fadeTime : ℚ
  color : String
  createdAt : String
  updatedAt : String
deriving DecidableEq

/-- `channels.slice(0, 512)` followed by the zero-padding loop. -/
def presetPad (channels : List ℚ) : List ℚ :=
  channels.take 512 ++ List.replicate (512 - (channels.take 512).length) 0

/-- `PresetManager.create(name, channels, fadeTime, color)`: returns the new
preset and the persisted store. -/
def createPreset (store : List Preset) (newId : ℕ) (now name : String)
    (channels : List ℚ) (fadeTime : ℚ) (color : String) : Preset × List Preset :=
  let preset : Preset :=
    { id := newId, name := name, channels := presetPad channels,
      fadeTime := fadeTime, color := color, createdAt := now, updatedAt := now }
  (preset, store ++ [preset])

/-- `PresetManager.getById(id)`: first stored preset with that id. -/
def getPresetById (store : List Preset) (id : ℕ) : Option Preset :=
  store.find? fun p => p.id == id

theorem presetPad_length (channels : List ℚ) : (presetPad channels).length = 512 := by
  unfold presetPad
  have h : (channels.take 512).length ≤ 512 := by
    rw [List.length_take]; omega
  simp only [List.length_append, List.length_replicate]
  omega

/-- C8 counterexample: `create` stores out-of-range entries verbatim — with
input `[300]` the created preset's first channel byte is 300 ∉ [0,255]. -/
theorem c8_counterexample :
    (createPreset [] 0 "t" "n" [300] 0 "c").1.channels.getD 0 0 = 300 ∧
    ¬((createPreset [] 0 "t" "n" [300] 0 "c").1.channels.getD 0 0 ≤ 255) := by
  constructor
  · rfl
  · intro h
    norm_num [createPreset, presetPad] at h

theorem find?_append_fresh {store : List Preset} {newId : ℕ} {p : Preset}
    (hfresh : ∀ q ∈ store, q.id ≠ newId) (hp : p.id = newId) :
    (store ++ [p]).find? (fun q => q.id == newId) = some p := by
  induction store with
  | nil => simp [List.find?, hp]
  | cons q rest ih =>
    have hq : (q.id == newId) = false := by
      simp only [beq_eq_false_iff_ne, ne_eq]
      exact hfresh q (by simp)
    simp only [List.cons_append, List.find?, hq]
    exact ih fun r hr => hfresh r (by simp [hr])

/-- C8 (amended): `create` trims or zero-pads the channel array to exactly 512
entries *stored verbatim* (so they all lie in [0,255] whenever the input
entries do, but out-of-range inputs are not clamped), assigns the supplied
fresh id and timestamps, and — provided no stored preset already carries the
new id — `getById` round-trips to the created preset, whose channels equal
the input after pad/trim. -/
theorem c8_amended (store : List Preset) (newId : ℕ) (now name color : String)
    (channels : List ℚ) (fadeTime : ℚ)
    (hfresh : ∀ p ∈ store, p.id ≠ newId) :
    (createPreset store newId now name channels fadeTime color).1.channels.length = 512 ∧
    (createPreset store newId now name channels fadeTime color).1.channels =
      presetPad channels ∧
    ((∀ x ∈ channels, 0 ≤ x ∧ x ≤ 255) →
      ∀ x ∈ (createPreset store newId now name channels fadeTime color).1.channels,
        0 ≤ x ∧ x ≤ 255) ∧
    (createPreset store newId now name channels fadeTime color).1.id = newId ∧
    (createPreset store newId now name channels fadeTime color).1.createdAt = now ∧
    (createPreset store newId now name channels fadeTime color).1.updatedAt = now ∧
    getPresetById (createPreset store newId now name channels fadeTime color).2 newId =
      some (createPreset store newId now name channels fadeTime color).1 := by
  refine ⟨presetPad_length channels, rfl, ?_, rfl, rfl, rfl, ?_⟩
  · intro hin x hx
    have hx' : x ∈ channels.take 512 ++ List.replicate (512 - (channels.take 512).length) 0 := hx
    rcases List.mem_append.mp hx' with h | h
    · exact hin x (List.mem_of_mem_take h)
    · have : x = 0 := List.eq_of_mem_replicate h
      subst this
      norm_num
  · exact find?_append_fresh hfresh rfl

theorem c8_amended_witness :
    (∀ p ∈ ([] : List Preset), p.id ≠ 7) ∧
    (createPreset [] 7 "t" "n" [1, 2] 0 "c").1.channels.length = 512 ∧
    getPresetById (createPreset [] 7 "t" "n" [1, 2] 0 "c").2 7 =
      some (createPreset [] 7 "t" "n" [1, 2] 0 "c").1 :=
  ⟨fun p hp => absurd hp (List.not_mem_nil p),
   (c8_amended [] 7 "t" "n" "c" [1, 2] 0 (fun p hp => absurd hp (List.not_mem_nil p))).1,
   (c8_amended [] 7 "t" "n" "c" [1, 2] 0 (fun p hp => absurd hp (List.not_mem_nil p))).2.2.2.2.2.2⟩

/-! ## FixtureManager.setActiveMode (src: `fixture-manager.ts`)

The profile/fixture fields that `setActiveMode` reads are embedded; timestamp
fields (set but never read by the claims) are omitted.  `Object.keys(...)`
yields the insertion-ordered key list, which the code sorts with the default
(lexicographic) string sort, modelled by `List.insertionSort (· ≤ ·)` (stable,
lexicographic — identical on these keys).  JS truthiness of the numeric
`fixture.startAddress` (`undefined` and `0` are falsy) is `numTruthy`. -/

/-- A profile channel definition `{ role, label }`. -/
structure ProfileChannelDef where
  role : String
  label : String
deriving DecidableEq

/-- A profile mode: the fields `setActiveMode` reads. -/
structure ProfileMode where
  name : String
  channelValue : ℤ
  defaults : Option (List (String × ℤ))
deriving DecidableEq

/-- A fixture profile: the fields `setActiveMode` reads.  `channels` is the
key → definition record in insertion order. -/
structure FixtureProfile where
  fixture : String
  modeChannel : Option String
  channels : List (String × ProfileChannelDef)
  modes : List ProfileMode
deriving DecidableEq

/-- A stored fixture: the fields `setActiveMode` reads or writes. -/
structure Fixture where
  id : String
  name : String
  typ : String
  profile : Option FixtureProfile
  startAddress : Option ℤ
  activeMode : Option String
deriving DecidableEq

/-- The three failure modes thrown by `setActiveMode`. -/
inductive ModeError
  | UnknownFixture
  | NotProfileFixture
  | UnknownMode
deriving DecidableEq

/-- JS string comparison as used by the default `Array.prototype.sort`:
lexicographic on UTF-16 code units (identical to code points for these
profile keys). -/
def codeUnitsLe : List Char → List Char → Bool
  | [], _ => true
  | _ :: _, [] => false
  | a :: as, b :: bs =>
    if a.val < b.val then true
    else if b.val < a.val then false
    else codeUnitsLe as bs

/-- JS `a <= b` on strings. -/
def jsStrLe (a b : String) : Prop := codeUnitsLe a.data b.data = true

instance jsStrLe.decRel : DecidableRel jsStrLe :=
  fun a b => inferInstanceAs (Decidable (codeUnitsLe a.data b.data = true))

/-- `Object.keys(fixture.profile.channels).sort()`. -/
def sortedChannelKeys (p : FixtureProfile) : List String :=
  List.insertionSort jsStrLe (p.channels.map Prod.fst)

/-- JS truthiness of the optional numeric `startAddress`: `undefined` and `0`
are falsy. -/
def numTruthy : Option ℤ → Bool
  | none => false
  | some a => a != 0

/-- The writes contributed by `mode.defaults`: one entry per `(key, value)`
whose key occurs among the sorted channel keys (`chIndex !== -1`), at
`startAddress + chIndex`.  (The code guards this loop with
`mode.defaults && fixture.startAddress`; the second conjunct is already true
on this path.) -/
def modeDefaultWrites (channelKeys : List String) (sa : ℤ) (mode : ProfileMode) :
    List (ℤ × ℤ) :=
  match mode.defaults with
  | none => []
  | some defs => defs.filterMap fun kv =>
      (channelKeys.findIdx? (fun k => k == kv.1)).map fun ci => (sa + (ci : ℤ), kv.2)

/-- `FixtureManager.setActiveMode(fixtureId, modeName)`, returning the write
list and the persisted fixture array (or the thrown error). -/
def setActiveMode (fixtures : List Fixture) (fixtureId modeName : String) :
    Except ModeError (List (ℤ × ℤ) × List Fixture) :=
  match fixtures.findIdx? (fun f => f.id == fixtureId) with
  | none => .error .UnknownFixture
  | some idx =>
    match fixtures[idx]? with
    | none => .error .UnknownFixture
    | some fixture =>
      match fixture.profile with
      | none => .error .NotProfileFixture
      | some profile =>
        match profile.modes.find? (fun m => m.name == modeName) with
        | none => .error .UnknownMode
        | some mode =>
          match profile.modeChannel with
          | none => .ok ([], fixtures)
          | some modeChannelKey =>
            let channelKeys := sortedChannelKeys profile
            match channelKeys.findIdx? (fun k => k == modeChannelKey) with
            | none => .ok ([], fixtures)
            | some modeChannelIndex =>
              if numTruthy fixture.startAddress then
                let sa := fixture.startAddress.getD 0
                .ok ((sa + (modeChannelIndex : ℤ), mode.channelValue) ::
                      modeDefaultWrites channelKeys sa mode,
                     fixtures.set idx { fixture with activeMode := some modeName })
              else
                .ok ([], fixtures)

/-- A profile with modes and defaults but no `modeChannel`. -/
def parProfile : FixtureProfile :=
  { fixture := "Par", modeChannel := none,
    channels := [("ch1", ⟨"dimmer", "Dimmer"⟩)],
    modes := [{ name := "m", channelValue := 10, defaults := some [("ch1", 5)] }] }

/-- A profile fixture bound to `parProfile` at start address 1. -/
def parFixture : Fixture :=
  { id := "f", name := "F", typ := "Par", profile := some parProfile,
    startAddress := some 1, activeMode := some "init" }

/-- C6 counterexample: for a fixture whose profile has no `modeChannel`,
`setActiveMode` succeeds but returns the *empty* write list — the defaults
entry `(1, 5)` the claim requires is absent — and it does *not* persist the
new active mode: the stored fixture still has `activeMode = "init"`. -/
theorem c6_counterexample :
    setActiveMode [parFixture] "f" "m" = .ok ([], [parFixture]) ∧
    ([] : List (ℤ × ℤ)) ≠ [(1, 5)] ∧
    parFixture.activeMode = some "init" ∧ some "init" ≠ some "m" := by
  refine ⟨rfl, by decide, rfl, by decide⟩

/-- C6 (amended): `setActiveMode` fails with `UnknownFixture` /
`NotProfileFixture` / `UnknownMode` as the claim states; but when the profile
has no `modeChannel`, or the `modeChannel` key is not among the profile's
channel keys, or the fixture's `startAddress` is missing (or 0, which JS
treats as falsy), it returns the *empty* write list and persists nothing;
only otherwise does it return
`{channel: startAddress + indexOf(modeChannel), value: mode.channelValue}`
followed by one entry per `(key, value)` in `mode.defaults` whose key occurs
among the profile's channel keys, persisting the new `activeMode`. -/
theorem c6_amended (fixtures : List Fixture) (fid mname : String)
    (idx : ℕ) (fixture : Fixture) (profile : FixtureProfile) (mode : ProfileMode) :
    (fixtures.findIdx? (fun f => f.id == fid) = none →
      setActiveMode fixtures fid mname = .error .UnknownFixture) ∧
    (fixtures.findIdx? (fun f => f.id == fid) = some idx →
      fixtures[idx]? = some fixture →
      ((fixture.profile = none →
        setActiveMode fixtures fid mname = .error .NotProfileFixture) ∧
      (fixture.profile = some profile →
        ((profile.modes.find? (fun m => m.name == mname) = none →
          setActiveMode fixtures fid mname = .error .UnknownMode) ∧
        (profile.modes.find? (fun m => m.name == mname) = some mode →
          ((profile.modeChannel = none →
            setActiveMode fixtures fid mname = .ok ([], fixtures)) ∧
          (∀ mk, profile.modeChannel = some mk →
            (((sortedChannelKeys profile).findIdx? (fun k => k == mk) = none →
              setActiveMode fixtures fid mname = .ok ([], fixtures)) ∧
            (∀ j, (sortedChannelKeys profile).findIdx? (fun k => k == mk) = some j →
              ((numTruthy fixture.startAddress = false →
                setActiveMode fixtures fid mname = .ok ([], fixtures)) ∧
              (numTruthy fixture.startAddress = true →
                setActiveMode fixtures fid mname = .ok
                  ((fixture.startAddress.getD 0 + (j : ℤ), mode.channelValue) ::
                    modeDefaultWrites (sortedChannelKeys profile)
                      (fixture.startAddress.getD 0) mode,
                   fixtures.set idx
                     { fixture with activeMode := some mname })))))))))))) := by
  constructor
  · intro h
    simp only [setActiveMode, h]
  · intro hidx hget
    refine ⟨?_, ?_⟩
    · intro hprof
      simp only [setActiveMode, hidx, hget, hprof]
    · intro hprof
      refine ⟨?_, ?_⟩
      · intro hmode
        simp only [setActiveMode, hidx, hget, hprof, hmode]
      · intro hmode
        refine ⟨?_, ?_⟩
        · intro hmk
          simp only [setActiveMode, hidx, hget, hprof, hmode, hmk]
        · intro mk hmk
          refine ⟨?_, ?_⟩
          · intro hj
            simp only [setActiveMode, hidx, hget, hprof, hmode, hmk, hj]
          · intro j hj
            refine ⟨?_, ?_⟩
            · intro hsa
              simp only [setActiveMode, hidx, hget, hprof, hmode, hmk, hj, hsa]
              rfl
            · intro hsa
              simp only [setActiveMode, hidx, hget, hprof, hmode, hmk, hj, hsa]
              rfl

/-- A profile with a `modeChannel` ("ch2"), one mode with a default on "ch3". -/
def spotMode : ProfileMode := { name := "w", channelValue := 128, defaults := some [("ch3", 50)] }

def spotProfile : FixtureProfile :=
  { fixture := "Spot", modeChannel := some "ch2",
    channels := [("ch1", ⟨"dimmer", "Dimmer"⟩), ("ch2", ⟨"mode-select", "Mode"⟩),
                 ("ch3", ⟨"dynamic", "Speed"⟩)],
    modes := [spotMode] }

def spotFixture : Fixture :=
  { id := "g", name := "G", typ := "Spot", profile := some spotProfile,
    startAddress := some 10, activeMode := none }

theorem c6_amended_witness :
    (sortedChannelKeys spotProfile).findIdx? (fun k => k == "ch2") = some 1 ∧
    numTruthy spotFixture.startAddress = true ∧
    setActiveMode [spotFixture] "g" "w" = .ok
      ((spotFixture.startAddress.getD 0 + (1 : ℤ), spotMode.channelValue) ::
        modeDefaultWrites (sortedChannelKeys spotProfile)
          (spotFixture.startAddress.getD 0) spotMode,
       [spotFixture].set 0 { spotFixture with activeMode := some "w" }) :=
  ⟨rfl, rfl,
   ((((((c6_amended [spotFixture] "g" "w" 0 spotFixture spotProfile spotMode).2
     rfl rfl).2 rfl).2 rfl).2 "ch2" rfl).2 1 rfl).2 rfl⟩

/-! ## CompanionServer (src: `socket-companion.ts`)

The automation (Bitfocus Companion) WebSocket protocol.  An inbound frame
either fails `JSON.parse` (modelled `none`) or parses to a command.  Each
`sendResponse` call is reified as one `Response`; the handlers below mirror
`handleCommand` and the per-action handlers branch for branch (broadcast
`event` frames are not responses and DMX side effects emit no response, so
neither appears here; the universe, preset and fixture operations invoked are
the ones embedded above).  Preset uuids are the same opaque identifiers used
in the `PresetManager` embedding.  `strTruthy` is JS string truthiness
(`undefined` and `""` are falsy), used by `!command.id`-style checks;
`channel === undefined` / `value === undefined` checks are `= none`.
The interpolated identifiers in the thrown `setActiveMode` messages are
abbreviated to fixed texts; only their presence matters here. -/

/-- An inbound automation command after `JSON.parse`. -/
structure CompanionCommand where
  action : String
  id : Option ℕ := none
  fixtureId : Option String := none
  modeName : Option String := none
  fadeTime : Option ℚ := none
  channel : Option ℚ := none
  value : Option ℚ := none
  state : Option String := none
deriving DecidableEq

/-- Response status discriminator. -/
inductive RStatus
  | ok
  | error
deriving DecidableEq

/-- One frame sent by `sendResponse`: `{status, action, data?, message?}`
(`hasData` records whether the `data` field is present). -/
structure Response where
  status : RStatus
  action : String
  hasData : Bool
  message : Option String
deriving DecidableEq

/-- The server state the response protocol depends on. -/
structure CompanionEnv where
  presets : List Preset
  fixtures : List Fixture

/-- JS truthiness of an optional string: `undefined` and `""` are falsy. -/
def strTruthy : Option String → Bool
  | none => false
  | some s => !s.isEmpty

/-- The `err.message` texts of the three `setActiveMode` throws. -/
def modeErrMessage : ModeError → String
  | .UnknownFixture => "Fixture not found"
  | .NotProfileFixture => "is not a profile fixture"
  | .UnknownMode => "Mode not found in profile"

/-- `handleRecallPreset`. -/
def handleRecallPreset (env : CompanionEnv) (c : CompanionCommand) : List Response :=
  match c.id with
  | none => [⟨.error, "recall_preset", false, some "Missing preset id"⟩]
  | some pid =>
    match getPresetById env.presets pid with
    | none => [⟨.error, "recall_preset", false, some "Preset not found"⟩]
    | some _ => [⟨.ok, "recall_preset", true, none⟩]

/-- `handleBlackout`: always responds ok. -/
def handleBlackout (_c : CompanionCommand) : List Response :=
  [⟨.ok, "blackout", true, none⟩]

/-- `handleSetChannel`. -/
def handleSetChannel (c : CompanionCommand) : List Response :=
  if c.channel = none ∨ c.value = none then
    [⟨.error, "set_channel", false, some "Missing channel or value"⟩]
  else
    [⟨.ok, "set_channel", true, none⟩]

/-- `handleGetState`. -/
def handleGetState : List Response :=
  [⟨.ok, "get_state", true, none⟩]

/-- `handleListPresets`. -/
def handleListPresets : List Response :=
  [⟨.ok, "list_presets", true, none⟩]

/-- `handleMasterDimmer`. -/
def handleMasterDimmer (c : CompanionCommand) : List Response :=
  if c.value = none then
    [⟨.error, "master_dimmer", false, some "Missing value"⟩]
  else
    [⟨.ok, "master_dimmer", true, none⟩]

/-- `handleSetMode`: the try/catch around `setActiveMode`. -/
def handleSetMode (env : CompanionEnv) (c : CompanionCommand) : List Response :=
  if ¬strTruthy c.fixtureId ∨ ¬strTruthy c.modeName then
    [⟨.error, "set_mode", false, some "Missing fixtureId or modeName"⟩]
  else
    match setActiveMode env.fixtures (c.fixtureId.getD "") (c.modeName.getD "") with
    | .ok _ => [⟨.ok, "set_mode", true, none⟩]
    | .error e => [⟨.error, "set_mode", false, some (modeErrMessage e)⟩]

/-- `handleTrigger`. -/
def handleTrigger (c : CompanionCommand) : List Response :=
  if c.channel = none ∨ ¬strTruthy c.state then
    [⟨.error, "trigger", false, some "Missing channel or state (on/off)"⟩]
  else
    [⟨.ok, "trigger", true, none⟩]

/-- `handleCommand`: the action switch (`default` responds with an unknown-
action error echoing the inbound action). -/
def handleCommand (env : CompanionEnv) (c : CompanionCommand) : List Response :=
  if c.action = "recall_preset" then handleRecallPreset env c
  else if c.action = "blackout" then handleBlackout c
  else if c.action = "set_channel" then handleSetChannel c
  else if c.action = "get_state" then handleGetState
  else if c.action = "list_presets" then handleListPresets
  else if c.action = "master_dimmer" then handleMasterDimmer c
  else if c.action = "set_mode" then handleSetMode env c
  else if c.action = "trigger" then handleTrigger c
  else [⟨.error, c.action, false, some ("Unknown action: " ++ c.action)⟩]

/-- One inbound frame: the `message` event handler in `setupHandlers` — parse
failure responds `{status:"error", action:"unknown"}`, otherwise dispatch. -/
def handleMessage (env : CompanionEnv) (m : Option CompanionCommand) : List Response :=
  match m with
  | none => [⟨.error, "unknown", false, some "Invalid JSON message"⟩]
  | some c => handleCommand env c

/-- The action a response must echo: the inbound action, or "unknown" when
the frame failed to parse. -/
def inboundAction : Option CompanionCommand → String
  | none => "unknown"
  | some c => c.action

theorem recall_cases (env : CompanionEnv) (c : CompanionCommand) :
    (handleRecallPreset env c).length = 1 ∧
    ∀ r ∈ handleRecallPreset env c, r.action = "recall_preset" ∧
      (c.id = none → r.status = .error ∧ r.message.isSome) := by
  unfold handleRecallPreset
  cases hid : c.id with
  | none => simp
  | some pid => cases h : getPresetById env.presets pid <;> simp [h]

theorem setChannel_cases (c : CompanionCommand) :
    (handleSetChannel c).length = 1 ∧
    ∀ r ∈ handleSetChannel c, r.action = "set_channel" ∧
      (c.channel = none ∨ c.value = none → r.status = .error ∧ r.message.isSome) := by
  unfold handleSetChannel
  by_cases h : c.channel = none ∨ c.value = none <;> simp [h]

theorem masterDimmer_cases (c : CompanionCommand) :
    (handleMasterDimmer c).length = 1 ∧
    ∀ r ∈ handleMasterDimmer c, r.action = "master_dimmer" ∧
      (c.value = none → r.status = .error ∧ r.message.isSome) := by
  unfold handleMasterDimmer
  by_cases h : c.value = none <;> simp [h]

theorem setMode_cases (env : CompanionEnv) (c : CompanionCommand) :
    (handleSetMode env c).length = 1 ∧
    ∀ r ∈ handleSetMode env c, r.action = "set_mode" ∧
      (strTruthy c.fixtureId = false ∨ strTruthy c.modeName = false →
        r.status = .error ∧ r.message.isSome) := by
  unfold handleSetMode
  by_cases h : strTruthy c.fixtureId = false ∨ strTruthy c.modeName = false
  · simp [h]
  · cases hm : setActiveMode env.fixtures (c.fixtureId.getD "") (c.modeName.getD "") <;>
      simp [h, hm]

theorem trigger_cases (c : CompanionCommand) :
    (handleTrigger c).length = 1 ∧
    ∀ r ∈ handleTrigger c, r.action = "trigger" ∧
      (c.channel = none ∨ strTruthy c.state = false →
        r.status = .error ∧ r.message.isSome) := by
  unfold handleTrigger
  by_cases h : c.channel = none ∨ strTruthy c.state = false <;> simp [h]

theorem blackout_cases (c : CompanionCommand) :
    (handleBlackout c).length = 1 ∧
    ∀ r ∈ handleBlackout c, r.action = "blackout" := by
  unfold handleBlackout
  simp

theorem getState_cases :
    handleGetState.length = 1 ∧ ∀ r ∈ handleGetState, r.action = "get_state" := by
  unfold handleGetState
  simp

theorem listPresets_cases :
    handleListPresets.length = 1 ∧ ∀ r ∈ handleListPresets, r.action = "list_presets" := by
  unfold handleListPresets
  simp

theorem c9_response_protocol (env : CompanionEnv) (m : Option CompanionCommand) :
    (handleMessage env m).length = 1 ∧
    ∀ r ∈ handleMessage env m,
      r.action = inboundAction m ∧
      (∀ c, m = some c →
        ((c.action = "recall_preset" → c.id = none →
            r.status = .error ∧ r.message.isSome) ∧
         (c.action = "set_channel" → c.channel = none ∨ c.value = none →
            r.status = .error ∧ r.message.isSome) ∧
         (c.action = "master_dimmer" → c.value = none →
            r.status = .error ∧ r.message.isSome) ∧
         (c.action = "set_mode" →
            strTruthy c.fixtureId = false ∨ strTruthy c.modeName = false →
            r.status = .error ∧ r.message.isSome) ∧
         (c.action = "trigger" → c.channel = none ∨ strTruthy c.state = false →
            r.status = .error ∧ r.message.isSome) ∧
         (c.action ≠ "recall_preset" → c.action ≠ "blackout" →
          c.action ≠ "set_channel" → c.action ≠ "get_state" →
          c.action ≠ "list_presets" → c.action ≠ "master_dimmer" →
          c.action ≠ "set_mode" → c.action ≠ "trigger" →
            r.status = .error ∧ r.message.isSome))) := by
  cases m with
  | none =>
    refine ⟨rfl, ?_⟩
    intro r hr
    simp only [handleMessage, List.mem_singleton] at hr
    subst hr
    exact ⟨rfl, fun c hc => by cases hc⟩
  | some c =>
    show (handleCommand env c).length = 1 ∧ ∀ r ∈ handleCommand env c, _
    by_cases h1 : c.action = "recall_preset"
    · obtain ⟨hl, hr⟩ := recall_cases env c
      simp only [handleCommand, if_pos h1]
      refine ⟨hl, fun r hmem => ⟨(hr r hmem).1.trans h1.symm, fun d hd => ?_⟩⟩
      cases hd
      refine ⟨fun _ => (hr r hmem).2, ?_, ?_, ?_, ?_, fun hne _ _ _ _ _ _ _ => absurd h1 hne⟩ <;>
        (intro ha; rw [h1] at ha; simp at ha)
    · by_cases h2 : c.action = "blackout"
      · obtain ⟨hl, hr⟩ := blackout_cases c
        simp only [handleCommand, if_neg h1, if_pos h2]
        refine ⟨hl, fun r hmem => ⟨(hr r hmem).trans h2.symm, fun d hd => ?_⟩⟩
        cases hd
        refine ⟨?_, ?_, ?_, ?_, ?_, fun _ hne _ _ _ _ _ _ => absurd h2 hne⟩ <;>
          (intro ha; rw [h2] at ha; simp at ha)
      · by_cases h3 : c.action = "set_channel"
        · obtain ⟨hl, hr⟩ := setChannel_cases c
          simp only [handleCommand, if_neg h1, if_neg h2, if_pos h3]
          refine ⟨hl, fun r hmem => ⟨(hr r hmem).1.trans h3.symm, fun d hd => ?_⟩⟩
          cases hd
          refine ⟨?_, fun _ => (hr r hmem).2, ?_, ?_, ?_,
              fun _ _ hne _ _ _ _ _ => absurd h3 hne⟩ <;>
            (intro ha; rw [h3] at ha; simp at ha)
        · by_cases h4 : c.action = "get_state"
          · obtain ⟨hl, hr⟩ := getState_cases
            simp only [handleCommand, if_neg h1, if_neg h2, if_neg h3, if_pos h4]
            refine ⟨hl, fun r hmem => ⟨(hr r hmem).trans h4.symm, fun d hd => ?_⟩⟩
            cases hd
            refine ⟨?_, ?_, ?_, ?_, ?_, fun _ _ _ hne _ _ _ _ => absurd h4 hne⟩ <;>
              (intro ha; rw [h4] at ha; simp at ha)
          · by_cases h5 : c.action = "list_presets"
            · obtain ⟨hl, hr⟩ := listPresets_cases
              simp only [handleCommand, if_neg h1, if_neg h2, if_neg h3, if_neg h4, if_pos h5]
              refine ⟨hl, fun r hmem => ⟨(hr r hmem).trans h5.symm, fun d hd => ?_⟩⟩
              cases hd
              refine ⟨?_, ?_, ?_, ?_, ?_, fun _ _ _ _ hne _ _ _ => absurd h5 hne⟩ <;>
                (intro ha; rw [h5] at ha; simp at ha)
            · by_cases h6 : c.action = "master_dimmer"
              · obtain ⟨hl, hr⟩ := masterDimmer_cases c
                simp only [handleCommand, if_neg h1, if_neg h2, if_neg h3, if_neg h4,
                  if_neg h5, if_pos h6]
                refine ⟨hl, fun r hmem => ⟨(hr r hmem).1.trans h6.symm, fun d hd => ?_⟩⟩
                cases hd
                refine ⟨?_, ?_, fun _ => (hr r hmem).2, ?_, ?_,
                    fun _ _ _ _ _ hne _ _ => absurd h6 hne⟩ <;>
                  (intro ha; rw [h6] at ha; simp at ha)
              · by_cases h7 : c.action = "set_mode"
                · obtain ⟨hl, hr⟩ := setMode_cases env c
                  simp only [handleCommand, if_neg h1, if_neg h2, if_neg h3, if_neg h4,
                    if_neg h5, if_neg h6, if_pos h7]
                  refine ⟨hl, fun r hmem => ⟨(hr r hmem).1.trans h7.symm, fun d hd => ?_⟩⟩
                  cases hd
                  refine ⟨?_, ?_, ?_, fun _ => (hr r hmem).2, ?_,
                      fun _ _ _ _ _ _ hne _ => absurd h7 hne⟩ <;>
                    (intro ha; rw [h7] at ha; simp at ha)
                · by_cases h8 : c.action = "trigger"
                  · obtain ⟨hl, hr⟩ := trigger_cases c
                    simp only [handleCommand, if_neg h1, if_neg h2, if_neg h3, if_neg h4,
                      if_neg h5, if_neg h6, if_neg h7, if_pos h8]
                    refine ⟨hl, fun r hmem => ⟨(hr r hmem).1.trans h8.symm, fun d hd => ?_⟩⟩
                    cases hd
                    refine ⟨?_, ?_, ?_, ?_, fun _ => (hr r hmem).2,
                        fun _ _ _ _ _ _ _ hne => absurd h8 hne⟩ <;>
                      (intro ha; rw [h8] at ha; simp at ha)
                  · simp only [handleCommand, if_neg h1, if_neg h2, if_neg h3, if_neg h4,
                      if_neg h5, if_neg h6, if_neg h7, if_neg h8]
                    refine ⟨rfl, fun r hmem => ?_⟩
                    simp only [List.mem_singleton] at hmem
                    subst hmem
                    refine ⟨rfl, fun d hd => ?_⟩
                    cases hd
                    exact ⟨fun ha => absurd ha h1, fun ha => absurd ha h3,
                      fun ha => absurd ha h6, fun ha => absurd ha h7,
                      fun ha => absurd ha h8, fun _ _ _ _ _ _ _ _ => ⟨rfl, rfl⟩⟩

theorem c9_response_protocol_witness :
    (handleMessage ⟨[], []⟩ (some { action := "set_channel" })).length = 1 :=
  (c9_response_protocol ⟨[], []⟩ (some { action := "set_channel" })).1
